import Mathlib

/-!
Verification of the bugboy Game Boy CPU/memory core.

Shallow embedding of the Rust sources `src/gb_mem.rs`, `src/gb_cpu.rs` and
`src/gb_opcodes.rs`. Machine integers (u8/u16) are modelled as `Nat` with
explicit reduction `% 256` / `% 65536` where the Rust code wraps, truncates or
masks. Byte-array memory is modelled as a total function `Nat → Nat`; the value
invariants (bytes < 256, addresses < 65536) appear as hypotheses on theorems
where they matter.

The hardware-bus callback (`HardwareBus::sync`) mutates no CPU or memory state
observed by any claim (its body is a no-op comparison), so bus syncing is not
represented in the state.
-/

namespace Bugboy

/-- Pointwise update of a function-modelled byte array (`self.ram[i] = v`). -/
def setByte (ram : Nat → Nat) (i v : Nat) : Nat → Nat :=
  fun j => if j = i then v else ram j

/-- `RamAddress::inc`: `wrapping_add` then `& ADDR_MAX` (= mod 2^16). -/
def ramInc (v amt : Nat) : Nat :=
  (v + amt) % 65536

/-- `RamAddress::dec`: `wrapping_sub` then `& ADDR_MAX` (= mod 2^16),
for the decrement amounts the code uses (amt < 65536). -/
def ramDec (v amt : Nat) : Nat :=
  (v + (65536 - amt % 65536)) % 65536

/-- `MemoryController` from gb_mem.rs: the 65536-byte array. The ROM object is
only read at construction time (`copy_current_slice`), so the array is the
whole state. -/
structure MemoryController where
  ram : Nat → Nat

/-- `MemoryController::read`: `self.ram[addr.get() as usize]`. -/
def MemoryController.read (mc : MemoryController) (addr : Nat) : Nat :=
  mc.ram addr

/-- `MemoryController::write` from gb_mem.rs lines 144-196, arm for arm.

The Rust `match idx` arms, in source order; arms that `return` drop the write,
all other arms fall through to the trailing `self.ram[idx] = val;`. Note that
the catch-all `_` arm (hit by 0x0100..0x3FFF) only logs a warning and does NOT
return, so those addresses are written. -/
def MemoryController.write (mc : MemoryController) (addr val : Nat) : MemoryController :=
  let idx := addr
  if idx ≤ 0x00FF then
    mc                                   -- "ERROR ... ROM bank 0", return
  else if 0x4000 ≤ idx ∧ idx ≤ 0x7FFF then
    mc                                   -- "ERROR ... switchable ROM bank", return
  else if 0x8000 ≤ idx ∧ idx ≤ 0x9FFF then
    ⟨setByte mc.ram idx val⟩             -- Video RAM, falls through to write
  else if 0xA000 ≤ idx ∧ idx ≤ 0xBFFF then
    ⟨setByte mc.ram idx val⟩             -- Switchable RAM bank, falls through
  else if 0xC000 ≤ idx ∧ idx ≤ 0xDFFF then
    ⟨setByte (setByte mc.ram (idx + 0x2000) val) idx val⟩  -- internal RAM + echo
  else if 0xE000 ≤ idx ∧ idx ≤ 0xFDFF then
    ⟨setByte (setByte mc.ram (idx - 0x2000) val) idx val⟩  -- mirror RAM
  else if 0xFE00 ≤ idx ∧ idx ≤ 0xFE9F then
    ⟨setByte mc.ram idx val⟩             -- OAM, falls through
  else if 0xFEA0 ≤ idx ∧ idx ≤ 0xFEFF then
    mc                                   -- "ERROR ... unusable memory", return
  else if 0xFF00 ≤ idx ∧ idx ≤ 0xFF7F then
    ⟨setByte mc.ram idx val⟩             -- I/O ports, falls through
  else if 0xFF80 ≤ idx ∧ idx ≤ 0xFFFE then
    ⟨setByte mc.ram idx val⟩             -- High RAM, falls through
  else if idx = 0xFFFF then
    ⟨setByte mc.ram idx val⟩             -- IE register, falls through
  else
    ⟨setByte mc.ram idx val⟩             -- `_` arm: warning only, still writes

/-- All-zero memory image, used as a concrete evaluation fixture. -/
def mcZero : MemoryController :=
  ⟨fun _ => 0⟩

/-! Flag constants from gb_cpu.rs. -/

def ZERO_FLAG : Nat := 0x80

def SUBT_FLAG : Nat := 0x40

def HALF_CARRY_FLAG : Nat := 0x20

def CARRY_FLAG : Nat := 0x10

/-- `DmgCpu::set_flag`: `self.f |= mask`. -/
def set_flag (f mask : Nat) : Nat :=
  f ||| mask

/-- `DmgCpu::reset_flag`: `self.f &= !mask` (u8 complement of the mask). -/
def reset_flag (f mask : Nat) : Nat :=
  f &&& (mask ^^^ 0xFF)

/-- `DmgCpu::set_flag_conditional(mask, test)`. -/
def set_flag_conditional (f mask : Nat) (test : Bool) : Nat :=
  if test then set_flag f mask else reset_flag f mask

/-- `DmgCpu::is_flag_set`: `(self.f & flag) == flag`. -/
def is_flag_set (f flag : Nat) : Bool :=
  f &&& flag == flag

/-- `DmgCpu::get_carry_value`: `(self.f & CARRY_FLAG) >> 5`.
(The shift amount in the source is 5, although `CARRY_FLAG` is bit 4.) -/
def get_carry_value (f : Nat) : Nat :=
  (f &&& CARRY_FLAG) >>> 5

/-- `DmgCpu::add_no_zcheck`: 8-bit add; returns (result, new F).
`overflowing_add` wraps mod 256 and reports `a + b > 255`; the half-carry
scratch value is `(a & 0x0F).wrapping_add(b & 0x0F)` (`& 0x0F` = `% 16`). -/
def add_no_zcheck (f a b : Nat) : Nat × Nat :=
  let r := (a + b) % 256
  let overflowed := decide (a + b > 255)
  let hr := (a % 16 + b % 16) % 256
  let f1 := set_flag_conditional f HALF_CARRY_FLAG (decide (hr > 0x0F))
  let f2 := set_flag_conditional f1 CARRY_FLAG overflowed
  let f3 := reset_flag f2 SUBT_FLAG
  (r, f3)

/-- `DmgCpu::add`: `add_no_zcheck` plus the zero-flag check on the result. -/
def add (f a b : Nat) : Nat × Nat :=
  let p := add_no_zcheck f a b
  (p.1, set_flag_conditional p.2 ZERO_FLAG (p.1 == 0))

/-- `DmgCpu::add_with_carry`: reads the carry with `get_carry_value`, then
performs two chained `add` calls (`add(a, carry)` then `add(t, b)`),
the second overwriting the first's flags. -/
def add_with_carry (f a b : Nat) : Nat × Nat :=
  let carry := get_carry_value f
  let p := add f a carry
  add p.2 p.1 b

/-- `DmgCpu::subtract_no_zcheck`: 8-bit subtract; returns (result, new F).
`overflowing_sub` wraps mod 256 and reports `b > a`; the half-carry scratch
value is `(a & 0x0F).wrapping_sub(b & 0x0F)`. Inputs are u8 (< 256). -/
def subtract_no_zcheck (f a b : Nat) : Nat × Nat :=
  let r := (a + 256 - b % 256) % 256
  let overflowed := decide (b % 256 > a)
  let hr := (a % 16 + 256 - b % 16) % 256
  let f1 := set_flag_conditional f HALF_CARRY_FLAG (decide (hr > 0x0F))
  let f2 := set_flag_conditional f1 CARRY_FLAG overflowed
  let f3 := set_flag f2 SUBT_FLAG
  (r, f3)

/-- `DmgCpu::subtract`: `subtract_no_zcheck` plus the zero-flag check. -/
def subtract (f a b : Nat) : Nat × Nat :=
  let p := subtract_no_zcheck f a b
  (p.1, set_flag_conditional p.2 ZERO_FLAG (p.1 == 0))

/-- `DmgCpu::subtract_with_carry`: `let n = b + carry; subtract(a, n)`.
The u8 sum `b + carry` is modelled wrapping (it never overflows at runtime
because `get_carry_value` always returns 0). -/
def subtract_with_carry (f a b : Nat) : Nat × Nat :=
  let carry := get_carry_value f
  let n := (b + carry) % 256
  subtract f a n

/-- `DmgCpu::do_daa` (gb_cpu.rs lines 501-529): takes (F, A), returns the new
(A, F). u16 arithmetic on `temp`; the `temp - 0x06` on the carry path of the
subtract branch is non-wrapping in the source and is modelled mod 2^16. -/
def do_daa (f a : Nat) : Nat × Nat :=
  let n := is_flag_set f SUBT_FLAG
  let hc := is_flag_set f HALF_CARRY_FLAG
  let c := is_flag_set f CARRY_FLAG
  let temp0 : Nat := a
  let temp1 :=
    if n then (if hc then ((temp0 + 65536 - 0x06) % 65536) &&& 0xFF else temp0)
    else (if hc || decide (temp0 &&& 0x0F > 9) then temp0 + 0x06 else temp0)
  let temp2 :=
    if n then (if c then (temp1 + 65536 - 0x06) % 65536 else temp1)
    else (if c || decide (temp1 > 0x9F) then temp1 + 0x60 else temp1)
  let a2 := temp2 % 256
  let f1 := set_flag_conditional f ZERO_FLAG (a2 == 0)
  let f2 := set_flag_conditional f1 CARRY_FLAG (decide (temp2 > 0xFF))
  let f3 := reset_flag f2 HALF_CARRY_FLAG
  (a2, f3)

/-! Secondary (CB-prefixed) opcode decode, from gb_opcodes.rs. -/

inductive SecondOpType where
  | ROTATE_SHIFT
  | BIT_CHECK
  | RESET
  | SET
deriving DecidableEq

/-- `SecondOpType::from_u8`: `let bits = (val & 0b11) >> 6;` (source order:
the mask `0b11` is applied before the shift). The Rust `match` panics on any
value other than 0-3, which cannot occur. -/
def SecondOpType.from_u8 (val : Nat) : SecondOpType :=
  let bits := (val &&& 0b11) >>> 6
  if bits = 0b00 then .ROTATE_SHIFT
  else if bits = 0b01 then .BIT_CHECK
  else if bits = 0b10 then .RESET
  else .SET

inductive SecondOpAction where
  | RLC
  | RL
  | RRC
  | RR
  | SLA
  | SRA
  | SRL
  | SWAP
deriving DecidableEq

/-- The `#[repr(u8)]` discriminant of `SecondOpAction` (`action as u8`). -/
def SecondOpAction.toDiscriminant : SecondOpAction → Nat
  | .RLC => 0b000
  | .RL => 0b010
  | .RRC => 0b001
  | .RR => 0b011
  | .SLA => 0b100
  | .SRA => 0b101
  | .SRL => 0b111
  | .SWAP => 0b110

/-- `SecondOpAction::from_u8`: `(val & 0b00_111_000) >> 3`. -/
def SecondOpAction.from_u8 (val : Nat) : SecondOpAction :=
  let bits := (val &&& 0b00111000) >>> 3
  if bits = 0b000 then .RLC
  else if bits = 0b010 then .RL
  else if bits = 0b001 then .RRC
  else if bits = 0b011 then .RR
  else if bits = 0b100 then .SLA
  else if bits = 0b101 then .SRA
  else if bits = 0b111 then .SRL
  else .SWAP

inductive SecondOpRegister where
  | A
  | B
  | C
  | D
  | E
  | H
  | L
  | mHL
deriving DecidableEq

/-- `SecondOpRegister::from_u8`: `val & 0b111`. -/
def SecondOpRegister.from_u8 (val : Nat) : SecondOpRegister :=
  let bits := val &&& 0b111
  if bits = 0b111 then .A
  else if bits = 0b000 then .B
  else if bits = 0b001 then .C
  else if bits = 0b010 then .D
  else if bits = 0b011 then .E
  else if bits = 0b100 then .H
  else if bits = 0b101 then .L
  else .mHL

/-! Rotate/shift primitives from gb_cpu.rs, as (result, new F) on (F, value).
Values are u8; `value << 1` truncates to 8 bits, `rotate_left`/`rotate_right`
are 8-bit rotations. -/

/-- `DmgCpu::do_rlc`. -/
def do_rlc (f value : Nat) : Nat × Nat :=
  let result := (value * 2) % 256 + value / 128 % 2
  let f1 := set_flag_conditional f CARRY_FLAG (decide (value &&& 0b10000000 > 0))
  let f2 := set_flag_conditional f1 ZERO_FLAG (result == 0)
  let f3 := reset_flag f2 (SUBT_FLAG ||| HALF_CARRY_FLAG)
  (result, f3)

/-- `DmgCpu::do_rl`. -/
def do_rl (f value : Nat) : Nat × Nat :=
  let carry := get_carry_value f
  let result := ((value <<< 1) % 256) ||| carry
  let f1 := set_flag_conditional f CARRY_FLAG (decide (value &&& 0b10000000 > 0))
  let f2 := set_flag_conditional f1 ZERO_FLAG (result == 0)
  let f3 := reset_flag f2 (SUBT_FLAG ||| HALF_CARRY_FLAG)
  (result, f3)

/-- `DmgCpu::do_rrc`. -/
def do_rrc (f value : Nat) : Nat × Nat :=
  let result := value / 2 + value % 2 * 128
  let f1 := set_flag_conditional f CARRY_FLAG (decide (value &&& 0b1 > 0))
  let f2 := set_flag_conditional f1 ZERO_FLAG (result == 0)
  let f3 := reset_flag f2 (SUBT_FLAG ||| HALF_CARRY_FLAG)
  (result, f3)

/-- `DmgCpu::do_rr`. -/
def do_rr (f value : Nat) : Nat × Nat :=
  let carry := get_carry_value f
  let result := (value >>> 1) ||| ((carry <<< 7) % 256)
  let f1 := set_flag_conditional f CARRY_FLAG (value &&& 0b1 == 0b1)
  let f2 := set_flag_conditional f1 ZERO_FLAG (result == 0)
  let f3 := reset_flag f2 (SUBT_FLAG ||| HALF_CARRY_FLAG)
  (result, f3)

/-- `DmgCpu::do_sla`. -/
def do_sla (f value : Nat) : Nat × Nat :=
  let result := (value <<< 1) % 256
  let f1 := set_flag_conditional f CARRY_FLAG (decide (value &&& 0b10000000 > 0))
  let f2 := set_flag_conditional f1 ZERO_FLAG (result == 0)
  let f3 := reset_flag f2 (SUBT_FLAG ||| HALF_CARRY_FLAG)
  (result, f3)

/-- `DmgCpu::do_sra`. -/
def do_sra (f value : Nat) : Nat × Nat :=
  let msb := value &&& 0b10000000
  let result := (value >>> 1) ||| msb
  let f1 := set_flag_conditional f CARRY_FLAG (decide (value &&& 0b1 > 0))
  let f2 := set_flag_conditional f1 ZERO_FLAG (result == 0)
  let f3 := reset_flag f2 (SUBT_FLAG ||| HALF_CARRY_FLAG)
  (result, f3)

/-- `DmgCpu::do_srl`. -/
def do_srl (f value : Nat) : Nat × Nat :=
  let result := value >>> 1
  let f1 := set_flag_conditional f CARRY_FLAG (decide (value &&& 0b1 > 0))
  let f2 := set_flag_conditional f1 ZERO_FLAG (result == 0)
  let f3 := reset_flag f2 (SUBT_FLAG ||| HALF_CARRY_FLAG)
  (result, f3)

/-- `DmgCpu::do_swap`. -/
def do_swap (f value : Nat) : Nat × Nat :=
  let result := ((value &&& 0x0F) <<< 4) ||| ((value &&& 0xF0) >>> 4)
  let f1 := set_flag_conditional f ZERO_FLAG (result == 0)
  let f2 := reset_flag f1 (SUBT_FLAG ||| HALF_CARRY_FLAG ||| CARRY_FLAG)
  (result, f2)

/-- `DmgCpu::hand_rotate_shift_op`. -/
def hand_rotate_shift_op (f value : Nat) (op : SecondOpAction) : Nat × Nat :=
  match op with
  | .RLC => do_rlc f value
  | .RL => do_rl f value
  | .RRC => do_rrc f value
  | .RR => do_rr f value
  | .SLA => do_sla f value
  | .SRA => do_sra f value
  | .SRL => do_srl f value
  | .SWAP => do_swap f value

/-! The CPU state (`DmgCpu` from gb_cpu.rs), without the Rc/RefCell plumbing:
the memory controller is a plain field. The hardware-bus handle carries no
observable state (its `sync` is a no-op), so it is omitted. -/

structure DmgCpu where
  a : Nat
  b : Nat
  c : Nat
  d : Nat
  e : Nat
  f : Nat
  h : Nat
  l : Nat
  sp : Nat
  pc : Nat
  ime : Bool
  halt : Bool
  stop : Bool
  clock : Nat
  mc : MemoryController

/-- `DmgCpu::make_hl_address`. -/
def make_hl_address (s : DmgCpu) : Nat :=
  (s.h <<< 8) ||| s.l

/-- `DmgCpu::read_pc_mem_and_increment`: byte at PC, PC post-incremented,
clock advanced by 4 (the bus sync has no state effect). -/
def read_pc_mem_and_increment (s : DmgCpu) : Nat × DmgCpu :=
  let result := s.mc.read s.pc
  (result, { s with pc := ramInc s.pc 1, clock := s.clock + 4 })

/-- `DmgCpu::read_pc_as_address`: two byte reads at PC (low then high), each
post-incrementing PC; no clock change. Value is `(high << 8) | low`. -/
def read_pc_as_address (s : DmgCpu) : Nat × DmgCpu :=
  let low := s.mc.read s.pc
  let s1 := { s with pc := ramInc s.pc 1 }
  let high := s1.mc.read s1.pc
  let s2 := { s1 with pc := ramInc s1.pc 1 }
  ((high <<< 8) ||| low, s2)

/-- `u8` → `i8` → `u16` sign extension used by `JR` (`offset as i8 as u16`). -/
def sign_extend_8_16 (n : Nat) : Nat :=
  if n < 128 then n else 0xFF00 + n

/-- `DmgCpu::do_jump_conditional`: always consumes the 2-byte target, assigns
PC (`RamAddress::set` masks mod 2^16) only when the test holds. -/
def do_jump_conditional (s : DmgCpu) (test : Bool) : DmgCpu :=
  let p := read_pc_as_address s
  if test then { p.2 with pc := p.1 % 65536 } else p.2

/-- `DmgCpu::do_jump_relative_conditional`: always consumes the 1-byte
displacement, adds it (sign-extended) to PC only when the test holds. -/
def do_jump_relative_conditional (s : DmgCpu) (test : Bool) : DmgCpu :=
  let offset := s.mc.read s.pc
  let s1 := { s with pc := ramInc s.pc 1 }
  if test then { s1 with pc := ramInc s1.pc (sign_extend_8_16 offset) } else s1

/-- `DmgCpu::push_address_parts`: pre-decrement SP and write low, pre-decrement
again and write high. (The Result plumbing never fails: gb_mem's `write` is
total.) -/
def push_address_parts (s : DmgCpu) (high low : Nat) : DmgCpu :=
  let sp1 := ramDec s.sp 1
  let mc1 := s.mc.write sp1 low
  let sp2 := ramDec sp1 1
  let mc2 := mc1.write sp2 high
  { s with sp := sp2, mc := mc2 }

/-- `DmgCpu::push_address_u16`:
`let high = (addr & 0xFF00 >> 8) as u8;` — by Rust precedence `>>` binds
before `&`, so this is `addr & (0xFF00 >> 8)`, i.e. `addr & 0x00FF`.
`let low = (addr & 0x00FF) as u8;` -/
def push_address_u16 (s : DmgCpu) (addr : Nat) : DmgCpu :=
  let high := (addr &&& (0xFF00 >>> 8)) % 256
  let low := (addr &&& 0x00FF) % 256
  push_address_parts s high low

/-- `DmgCpu::pop_address_parts`: read high at SP, post-increment, read low,
post-increment. -/
def pop_address_parts (s : DmgCpu) : (Nat × Nat) × DmgCpu :=
  let high := s.mc.read s.sp
  let s1 := { s with sp := ramInc s.sp 1 }
  let low := s1.mc.read s1.sp
  let s2 := { s1 with sp := ramInc s1.sp 1 }
  ((high, low), s2)

/-- `DmgCpu::pop_address_u16`: reconstruct `(high << 8) | low`. -/
def pop_address_u16 (s : DmgCpu) : Nat × DmgCpu :=
  let p := pop_address_parts s
  ((p.1.1 <<< 8) ||| p.1.2, p.2)

/-- `DmgCpu::do_call_conditional`: always consumes the 2-byte target; when
taken, pushes the post-operand PC and jumps. -/
def do_call_conditional (s : DmgCpu) (test : Bool) : DmgCpu :=
  let p := read_pc_as_address s
  if test then
    let addr := p.2.pc
    let s2 := { p.2 with pc := p.1 % 65536 }
    push_address_u16 s2 addr
  else p.2

/-- `DmgCpu::decode_and_execute_cb_op` (gb_cpu.rs lines 408-495), including
the ROTATE_SHIFT arm whose non-A targets perform `reg &= !bit_mask` instead
of the rotate/shift operation. -/
def decode_and_execute_cb_op (s : DmgCpu) (sop : Nat) : DmgCpu :=
  let op_type := SecondOpType.from_u8 sop
  let action := SecondOpAction.from_u8 sop
  let register := SecondOpRegister.from_u8 sop
  let bit_mask := (1 <<< action.toDiscriminant) % 256
  match op_type with
  | .BIT_CHECK =>
    let reg_value :=
      match register with
      | .A => s.a
      | .B => s.b
      | .C => s.c
      | .D => s.d
      | .E => s.e
      | .H => s.h
      | .L => s.l
      | .mHL => s.mc.read (make_hl_address s)
    { s with f := set_flag_conditional s.f ZERO_FLAG (reg_value &&& bit_mask == 0) }
  | .SET =>
    match register with
    | .A => { s with a := s.a ||| bit_mask }
    | .B => { s with b := s.b ||| bit_mask }
    | .C => { s with c := s.c ||| bit_mask }
    | .D => { s with d := s.d ||| bit_mask }
    | .E => { s with e := s.e ||| bit_mask }
    | .H => { s with h := s.h ||| bit_mask }
    | .L => { s with l := s.l ||| bit_mask }
    | .mHL =>
      let hl := make_hl_address s
      let val := s.mc.read hl
      { s with mc := s.mc.write hl (val ||| bit_mask) }
  | .RESET =>
    match register with
    | .A => { s with a := s.a &&& (bit_mask ^^^ 0xFF) }
    | .B => { s with b := s.b &&& (bit_mask ^^^ 0xFF) }
    | .C => { s with c := s.c &&& (bit_mask ^^^ 0xFF) }
    | .D => { s with d := s.d &&& (bit_mask ^^^ 0xFF) }
    | .E => { s with e := s.e &&& (bit_mask ^^^ 0xFF) }
    | .H => { s with h := s.h &&& (bit_mask ^^^ 0xFF) }
    | .L => { s with l := s.l &&& (bit_mask ^^^ 0xFF) }
    | .mHL =>
      let hl := make_hl_address s
      let val := s.mc.read hl
      { s with mc := s.mc.write hl (val &&& (bit_mask ^^^ 0xFF)) }
  | .ROTATE_SHIFT =>
    match register with
    | .A =>
      let p := hand_rotate_shift_op s.f s.a action
      { s with a := p.1, f := p.2 }
    | .B => { s with b := s.b &&& (bit_mask ^^^ 0xFF) }
    | .C => { s with c := s.c &&& (bit_mask ^^^ 0xFF) }
    | .D => { s with d := s.d &&& (bit_mask ^^^ 0xFF) }
    | .E => { s with e := s.e &&& (bit_mask ^^^ 0xFF) }
    | .H => { s with h := s.h &&& (bit_mask ^^^ 0xFF) }
    | .L => { s with l := s.l &&& (bit_mask ^^^ 0xFF) }
    | .mHL =>
      let hl := make_hl_address s
      let val := s.mc.read hl
      { s with mc := s.mc.write hl (val &&& (bit_mask ^^^ 0xFF)) }

/-- The primary opcode enumeration (gb_opcodes.rs), restricted to the
operations the verified claims are about: the compare family, the 16-bit POP
family, and the conditional jump/relative-jump/call families. The remaining
variants of the Rust enum play no part in any claim. -/
inductive OpCodes where
  | CP_A
  | CP_B
  | CP_C
  | CP_D
  | CP_E
  | CP_H
  | CP_L
  | CP_N
  | CP_mHL
  | POP_BC
  | POP_DE
  | POP_HL
  | POP_AF
  | JP_NZ_NN
  | JP_Z_NN
  | JP_NC_NN
  | JP_C_NN
  | JR_NZ_e
  | JR_Z_e
  | JR_NC_e
  | JR_C_e
  | CALL_NZ_NN
  | CALL_Z_NN
  | CALL_NC_NN
  | CALL_C_NN
deriving DecidableEq

/-- `DmgCpu::do_op` (gb_cpu.rs lines 544-1637) for the embedded opcode
subset, arm for arm. The trace-log push and the debug printing have no
CPU-state effect and are omitted; the `Result` plumbing never fails because
gb_mem's `write` is total. -/
def do_op (op : OpCodes) (s : DmgCpu) : DmgCpu :=
  match op with
  | .CP_A =>
    let p := subtract_with_carry s.f s.a s.a
    { s with f := p.2 }
  | .CP_B =>
    let p := subtract_with_carry s.f s.a s.b
    { s with f := p.2 }
  | .CP_C =>
    let p := subtract_with_carry s.f s.a s.c
    { s with f := p.2 }
  | .CP_D =>
    let p := subtract_with_carry s.f s.a s.d
    { s with f := p.2 }
  | .CP_E =>
    let p := subtract_with_carry s.f s.a s.e
    { s with f := p.2 }
  | .CP_H =>
    let p := subtract_with_carry s.f s.a s.h
    { s with f := p.2 }
  | .CP_L =>
    let p := subtract_with_carry s.f s.a s.l
    { s with f := p.2 }
  | .CP_N =>
    let q := read_pc_mem_and_increment s
    let p := subtract_with_carry q.2.f q.2.a q.1
    { q.2 with f := p.2 }
  | .CP_mHL =>
    let val := s.mc.read (make_hl_address s)
    let p := subtract_with_carry s.f s.a val
    { s with f := p.2 }
  | .POP_BC =>
    let p := pop_address_parts s
    { p.2 with b := p.1.1, c := p.1.2 }
  | .POP_DE =>
    let p := pop_address_parts s
    { p.2 with b := p.1.1, c := p.1.2 }
  | .POP_HL =>
    let p := pop_address_parts s
    { p.2 with b := p.1.1, c := p.1.2 }
  | .POP_AF =>
    let p := pop_address_parts s
    { p.2 with b := p.1.1, c := p.1.2 }
  | .JP_NZ_NN => do_jump_conditional s (s.f &&& ZERO_FLAG == 0)
  | .JP_Z_NN => do_jump_conditional s (s.f &&& ZERO_FLAG == ZERO_FLAG)
  | .JP_NC_NN => do_jump_conditional s (s.f &&& CARRY_FLAG == 0)
  | .JP_C_NN => do_jump_conditional s (s.f &&& CARRY_FLAG == CARRY_FLAG)
  | .JR_NZ_e => do_jump_relative_conditional s (s.f &&& ZERO_FLAG == 0)
  | .JR_Z_e => do_jump_relative_conditional s (s.f &&& ZERO_FLAG == ZERO_FLAG)
  | .JR_NC_e => do_jump_relative_conditional s (s.f &&& CARRY_FLAG == 0)
  | .JR_C_e => do_jump_relative_conditional s (s.f &&& CARRY_FLAG == CARRY_FLAG)
  | .CALL_NZ_NN => do_call_conditional s (s.f &&& ZERO_FLAG == 0)
  | .CALL_Z_NN => do_call_conditional s (s.f &&& ZERO_FLAG == ZERO_FLAG)
  | .CALL_NC_NN => do_call_conditional s (s.f &&& CARRY_FLAG == 0)
  | .CALL_C_NN => do_call_conditional s (s.f &&& CARRY_FLAG == CARRY_FLAG)

/-- Power-on CPU state over all-zero memory (`DmgCpu::new`). -/
def cpuZero : DmgCpu :=
  { a := 0, b := 0, c := 0, d := 0, e := 0, f := 0, h := 0, l := 0,
    sp := 0xFFFE, pc := 0x0100, ime := true, halt := false, stop := false,
    clock := 0, mc := mcZero }

/-- Fixture for the POP routing counterexample: SP at 0xC000 with the bytes
0x12, 0x34 on the stack. -/
def cpuPopFix : DmgCpu :=
  { cpuZero with
    sp := 0xC000,
    mc := ⟨fun i => if i = 0xC000 then 0x12 else if i = 0xC001 then 0x34 else 0⟩ }

/-- Fixture for the CB-prefix counterexample: B = 0x01. -/
def cpuCbFix : DmgCpu :=
  { cpuZero with b := 0x01 }

end Bugboy

namespace Bugboy

/-- C2 counterexample: for `w = 0xDE00` (inside the claimed range
0xC000-0xDFFF) the mirrored address `w + 0x2000 = 0xFE00` lies in the OAM
region, not in the echo region, so writing there does not mirror back:
`read(w)` stays 0 instead of becoming 5. -/
theorem echo_mirror_fails_above_0xDDFF :
    ¬ (mcZero.write (0xDE00 + 0x2000) 5).read 0xDE00 = 5 := by
  decide

/-- C2 amended: a working-RAM write at `w ∈ [0xC000, 0xDFFF]` always lands in
the byte at `w + 0x2000`; the reverse mirroring (writing `w + 0x2000` is seen
at `w`) holds on the sub-range `w ≤ 0xDDFF`, i.e. exactly when `w + 0x2000`
is inside the echo region 0xE000-0xFDFF; and reads are always literal. -/
theorem echo_mirror_amended (mc : MemoryController) (w x a : Nat)
    (hlo : 0xC000 ≤ w) (hhi : w ≤ 0xDFFF) :
    (mc.write w x).read (w + 0x2000) = x ∧
    (w ≤ 0xDDFF → (mc.write (w + 0x2000) x).read w = x) ∧
    mc.read a = mc.ram a := by
  refine ⟨?_, ?_, rfl⟩
  · unfold MemoryController.write MemoryController.read setByte
    simp only
    rw [if_neg (by omega), if_neg (by omega), if_neg (by omega),
      if_neg (by omega), if_pos (by omega)]
    simp only
    rw [if_neg (show ¬ (w + 0x2000 = w) by omega)]
    simp
  · intro hde
    unfold MemoryController.write MemoryController.read setByte
    simp only
    rw [if_neg (by omega), if_neg (by omega), if_neg (by omega),
      if_neg (by omega), if_neg (by omega), if_pos (by omega)]
    simp only
    rw [if_neg (show ¬ (w = w + 0x2000) by omega),
      if_pos (show w = w + 0x2000 - 0x2000 by omega)]

/-- C2 amended, witness at `w = 0xC123`, `x = 7`, `a = 3`. -/
theorem echo_mirror_amended_witness :
    0xC000 ≤ 0xC123 ∧ 0xC123 ≤ 0xDFFF ∧
    ((mcZero.write 0xC123 7).read (0xC123 + 0x2000) = 7 ∧
     (0xC123 ≤ 0xDDFF → (mcZero.write (0xC123 + 0x2000) 7).read 0xC123 = 7) ∧
     mcZero.read 3 = mcZero.ram 3) :=
  ⟨by decide, by decide,
    echo_mirror_amended mcZero 0xC123 7 3 (by decide) (by decide)⟩

set_option maxRecDepth 100000 in
/-- The four flag bits produced by the `add` flag chain depend only on the
three condition booleans, for any 8-bit prior flag register. -/
theorem add_flag_chain : ∀ f < 256, ∀ hb cb zb : Bool,
    is_flag_set (set_flag_conditional (reset_flag (set_flag_conditional
        (set_flag_conditional f HALF_CARRY_FLAG hb) CARRY_FLAG cb) SUBT_FLAG)
        ZERO_FLAG zb) CARRY_FLAG = cb ∧
    is_flag_set (set_flag_conditional (reset_flag (set_flag_conditional
        (set_flag_conditional f HALF_CARRY_FLAG hb) CARRY_FLAG cb) SUBT_FLAG)
        ZERO_FLAG zb) HALF_CARRY_FLAG = hb ∧
    is_flag_set (set_flag_conditional (reset_flag (set_flag_conditional
        (set_flag_conditional f HALF_CARRY_FLAG hb) CARRY_FLAG cb) SUBT_FLAG)
        ZERO_FLAG zb) SUBT_FLAG = false ∧
    is_flag_set (set_flag_conditional (reset_flag (set_flag_conditional
        (set_flag_conditional f HALF_CARRY_FLAG hb) CARRY_FLAG cb) SUBT_FLAG)
        ZERO_FLAG zb) ZERO_FLAG = zb := by
  decide

/-- C5: for all 8-bit `a`, `b` and any 8-bit prior flag register, `add`
returns `(a+b) mod 256`, sets Carry iff `a+b ≥ 256`, sets Half-Carry iff
`(a mod 16)+(b mod 16) ≥ 0x10`, clears Subtract, and sets Zero iff the result
is 0. -/
theorem alu_add_spec (f a b : Nat) (hf : f < 256) (_ha : a < 256) (_hb : b < 256) :
    (add f a b).1 = (a + b) % 256 ∧
    (is_flag_set (add f a b).2 CARRY_FLAG = true ↔ 256 ≤ a + b) ∧
    (is_flag_set (add f a b).2 HALF_CARRY_FLAG = true ↔ 0x10 ≤ a % 16 + b % 16) ∧
    is_flag_set (add f a b).2 SUBT_FLAG = false ∧
    (is_flag_set (add f a b).2 ZERO_FLAG = true ↔ (a + b) % 256 = 0) := by
  obtain ⟨h1, h2, h3, h4⟩ :=
    add_flag_chain f hf (decide ((a % 16 + b % 16) % 256 > 0x0F))
      (decide (a + b > 255)) (((a + b) % 256) == 0)
  refine ⟨rfl, ?_, ?_, ?_, ?_⟩
  · show is_flag_set (add f a b).2 CARRY_FLAG = true ↔ 256 ≤ a + b
    unfold add add_no_zcheck
    simp only
    rw [h1]
    simp only [decide_eq_true_eq]
    omega
  · unfold add add_no_zcheck
    simp only
    rw [h2]
    simp only [decide_eq_true_eq]
    have hm : (a % 16 + b % 16) % 256 = a % 16 + b % 16 := by omega
    rw [hm]
    omega
  · unfold add add_no_zcheck
    simp only
    rw [h3]
  · unfold add add_no_zcheck
    simp only
    rw [h4]
    simp [Nat.beq_eq_true_eq]

/-- C5 witness at `f = 0`, `a = 200`, `b = 100`. -/
theorem alu_add_spec_witness :
    (0 : Nat) < 256 ∧ (200 : Nat) < 256 ∧ (100 : Nat) < 256 ∧
    ((add 0 200 100).1 = (200 + 100) % 256 ∧
     (is_flag_set (add 0 200 100).2 CARRY_FLAG = true ↔ 256 ≤ 200 + 100) ∧
     (is_flag_set (add 0 200 100).2 HALF_CARRY_FLAG = true ↔
       0x10 ≤ 200 % 16 + 100 % 16) ∧
     is_flag_set (add 0 200 100).2 SUBT_FLAG = false ∧
     (is_flag_set (add 0 200 100).2 ZERO_FLAG = true ↔ (200 + 100) % 256 = 0)) :=
  ⟨by decide, by decide, by decide,
    alu_add_spec 0 200 100 (by decide) (by decide) (by decide)⟩

/-- C6: `get_carry_value` shifts the masked carry bit right by 5 (bit 4 went
to bit position 4, so the shift empties it) and therefore returns 0 for every
flag register; consequently `add_with_carry(0, 0)` with the Carry flag set
(F = 0x10) yields 0, not the 1 the claim's 9-bit-extension rule requires.
The implementation also chains two 8-bit `add`s rather than computing the
flags once. -/
theorem adc_carry_in_always_zero :
    (∀ f : Nat, get_carry_value f = 0) ∧
    (add_with_carry 0x10 0 0).1 = 0 ∧
    (add_with_carry 0x10 0 0).1 ≠ 1 := by
  refine ⟨?_, by decide, by decide⟩
  intro f
  unfold get_carry_value CARRY_FLAG
  have hle : f &&& 16 ≤ 16 := Nat.and_le_right
  rw [Nat.shiftRight_eq_div_pow]
  omega

/-- C9: in the Subtract-flag branch of `do_daa` the carry-conditioned
correction subtracts 0x06 instead of 0x60. With F = 0x50 (Subtract and Carry
set, Half-Carry clear) and A = 0x70, the code produces A = 0x6A while the
claimed correction (subtract 0x60) would give A = 0x10. -/
theorem daa_carry_correction_wrong :
    (do_daa 0x50 0x70).1 = 0x6A ∧ (do_daa 0x50 0x70).1 ≠ 0x10 := by
  constructor
  · rfl
  · decide

/-- `RamAddress` increment composition facts used below. -/
theorem ramInc_one_one (p : Nat) : ramInc (ramInc p 1) 1 = (p + 2) % 65536 := by
  simp only [ramInc]
  omega

/-- `RamAddress` single increment as a mod-2^16 sum. -/
theorem ramInc_one (p : Nat) : ramInc p 1 = (p + 1) % 65536 := rfl

/-- C3: `push_address_u16` computes the "high" byte as
`addr & (0xFF00 >> 8) = addr & 0x00FF` (Rust precedence), i.e. the LOW byte,
so pushing 0x1234 stores 0x34 twice and the immediate pop reconstructs
0x3434, not 0x1234 — although SP does return to its pre-push value. -/
theorem push_pop_loses_high_byte :
    (pop_address_u16 (push_address_u16 cpuZero 0x1234)).1 = 0x3434 ∧
    (pop_address_u16 (push_address_u16 cpuZero 0x1234)).1 ≠ 0x1234 ∧
    (pop_address_u16 (push_address_u16 cpuZero 0x1234)).2.sp = cpuZero.sp := by
  refine ⟨rfl, ?_, rfl⟩
  intro hcontra
  exact absurd ((rfl : (pop_address_u16 (push_address_u16 cpuZero 0x1234)).1
    = 0x3434) ▸ hcontra) (by decide)

/-- C4: the secondary decode computes the class bits as `(sop & 0b11) >> 6`,
which is 0 for every second opcode byte, so the class is always
ROTATE_SHIFT regardless of bits 7-6; for `sop = 0x40` (BIT 0,B in the claimed
field layout) the code therefore lands in the rotate/shift arm, whose non-A
targets clear a bit instead: with B = 0x01 it zeroes B and leaves the flags
alone, instead of bit-testing B into the Zero flag and leaving B unchanged. -/
theorem cb_decode_class_ignores_bits76 :
    SecondOpType.from_u8 0x40 = SecondOpType.ROTATE_SHIFT ∧
    SecondOpType.from_u8 0x40 ≠ SecondOpType.BIT_CHECK ∧
    (decode_and_execute_cb_op cpuCbFix 0x40).b = 0 ∧
    cpuCbFix.b = 0x01 ∧
    (decode_and_execute_cb_op cpuCbFix 0x40).f = cpuCbFix.f := by
  exact ⟨rfl, by decide, rfl, rfl, rfl⟩

/-- C7: all four 16-bit POP arms of `do_op` assign the popped bytes to the
B/C pair; executing POP_DE with 0x12, 0x34 on the stack leaves D and E at 0
and writes B = 0x12, C = 0x34, contrary to the claim that each POP variant
targets the register pair its opcode names. -/
theorem pop_de_routes_to_bc :
    (do_op OpCodes.POP_DE cpuPopFix).b = 0x12 ∧
    (do_op OpCodes.POP_DE cpuPopFix).c = 0x34 ∧
    (do_op OpCodes.POP_DE cpuPopFix).d = 0 ∧
    (do_op OpCodes.POP_DE cpuPopFix).e = 0 ∧
    (do_op OpCodes.POP_DE cpuPopFix).d ≠ 0x12 := by
  refine ⟨rfl, rfl, rfl, rfl, ?_⟩
  intro hcontra
  exact absurd ((rfl : (do_op OpCodes.POP_DE cpuPopFix).d = 0) ▸ hcontra)
    (by decide)

/-- C10: every compare opcode leaves A, the other 8-bit data registers, SP
and memory unchanged; only F (and PC, through operand fetch) may change. -/
theorem cp_only_touches_flags (op : OpCodes)
    (hop : op ∈ [OpCodes.CP_A, OpCodes.CP_B, OpCodes.CP_C, OpCodes.CP_D,
      OpCodes.CP_E, OpCodes.CP_H, OpCodes.CP_L, OpCodes.CP_N, OpCodes.CP_mHL])
    (s : DmgCpu) :
    (do_op op s).a = s.a ∧ (do_op op s).b = s.b ∧ (do_op op s).c = s.c ∧
    (do_op op s).d = s.d ∧ (do_op op s).e = s.e ∧ (do_op op s).h = s.h ∧
    (do_op op s).l = s.l ∧ (do_op op s).sp = s.sp ∧ (do_op op s).mc = s.mc := by
  fin_cases hop <;>
    exact ⟨rfl, rfl, rfl, rfl, rfl, rfl, rfl, rfl, rfl⟩

/-- C10 witness at CP_A on the power-on state. -/
theorem cp_only_touches_flags_witness :
    OpCodes.CP_A ∈ [OpCodes.CP_A, OpCodes.CP_B, OpCodes.CP_C, OpCodes.CP_D,
      OpCodes.CP_E, OpCodes.CP_H, OpCodes.CP_L, OpCodes.CP_N, OpCodes.CP_mHL] ∧
    ((do_op OpCodes.CP_A cpuZero).a = cpuZero.a ∧
     (do_op OpCodes.CP_A cpuZero).b = cpuZero.b ∧
     (do_op OpCodes.CP_A cpuZero).c = cpuZero.c ∧
     (do_op OpCodes.CP_A cpuZero).d = cpuZero.d ∧
     (do_op OpCodes.CP_A cpuZero).e = cpuZero.e ∧
     (do_op OpCodes.CP_A cpuZero).h = cpuZero.h ∧
     (do_op OpCodes.CP_A cpuZero).l = cpuZero.l ∧
     (do_op OpCodes.CP_A cpuZero).sp = cpuZero.sp ∧
     (do_op OpCodes.CP_A cpuZero).mc = cpuZero.mc) :=
  ⟨by decide, cp_only_touches_flags OpCodes.CP_A (by decide) cpuZero⟩

/-- C8: conditional JP/JR/CALL always consume their operand bytes. Parts
(i)-(iv) characterise the shared helpers for an arbitrary test outcome: the
not-taken result is the input state with PC advanced past the operands and
nothing else changed (in particular no push for CALL), and the taken result
additionally only reassigns PC (for CALL: pushes the post-operand PC and
jumps). Part (v) ties every conditional opcode arm of `do_op` to its helper
and flag condition. -/
theorem cond_branch_consumes_operands (s : DmgCpu) (t : Bool) :
    (do_jump_conditional s t =
      if t then
        { s with pc := ((s.mc.read (ramInc s.pc 1) <<< 8) ||| s.mc.read s.pc) % 65536 }
      else { s with pc := (s.pc + 2) % 65536 }) ∧
    (do_jump_relative_conditional s t =
      if t then
        { s with pc := ((s.pc + 1) % 65536 + sign_extend_8_16 (s.mc.read s.pc)) % 65536 }
      else { s with pc := (s.pc + 1) % 65536 }) ∧
    (do_call_conditional s false = { s with pc := (s.pc + 2) % 65536 }) ∧
    (do_call_conditional s true =
      push_address_u16
        { s with pc := ((s.mc.read (ramInc s.pc 1) <<< 8) ||| s.mc.read s.pc) % 65536 }
        ((s.pc + 2) % 65536)) ∧
    (do_op .JP_NZ_NN s = do_jump_conditional s (s.f &&& ZERO_FLAG == 0)) ∧
    (do_op .JP_Z_NN s = do_jump_conditional s (s.f &&& ZERO_FLAG == ZERO_FLAG)) ∧
    (do_op .JP_NC_NN s = do_jump_conditional s (s.f &&& CARRY_FLAG == 0)) ∧
    (do_op .JP_C_NN s = do_jump_conditional s (s.f &&& CARRY_FLAG == CARRY_FLAG)) ∧
    (do_op .JR_NZ_e s = do_jump_relative_conditional s (s.f &&& ZERO_FLAG == 0)) ∧
    (do_op .JR_Z_e s = do_jump_relative_conditional s (s.f &&& ZERO_FLAG == ZERO_FLAG)) ∧
    (do_op .JR_NC_e s = do_jump_relative_conditional s (s.f &&& CARRY_FLAG == 0)) ∧
    (do_op .JR_C_e s = do_jump_relative_conditional s (s.f &&& CARRY_FLAG == CARRY_FLAG)) ∧
    (do_op .CALL_NZ_NN s = do_call_conditional s (s.f &&& ZERO_FLAG == 0)) ∧
    (do_op .CALL_Z_NN s = do_call_conditional s (s.f &&& ZERO_FLAG == ZERO_FLAG)) ∧
    (do_op .CALL_NC_NN s = do_call_conditional s (s.f &&& CARRY_FLAG == 0)) ∧
    (do_op .CALL_C_NN s = do_call_conditional s (s.f &&& CARRY_FLAG == CARRY_FLAG)) := by
  refine ⟨?_, ?_, ?_, ?_, rfl, rfl, rfl, rfl, rfl, rfl, rfl, rfl, rfl, rfl, rfl, rfl⟩
  · cases t
    · show { s with pc := ramInc (ramInc s.pc 1) 1 } =
        { s with pc := (s.pc + 2) % 65536 }
      rw [ramInc_one_one]
    · show { s with pc := ((s.mc.read (ramInc s.pc 1) <<< 8) ||| s.mc.read s.pc) % 65536 } =
        { s with pc := ((s.mc.read (ramInc s.pc 1) <<< 8) ||| s.mc.read s.pc) % 65536 }
      rfl
  · cases t
    · show { s with pc := ramInc s.pc 1 } = { s with pc := (s.pc + 1) % 65536 }
      rfl
    · show { s with pc := ramInc (ramInc s.pc 1) (sign_extend_8_16 (s.mc.read s.pc)) } =
        { s with pc := ((s.pc + 1) % 65536 + sign_extend_8_16 (s.mc.read s.pc)) % 65536 }
      rfl
  · show { s with pc := ramInc (ramInc s.pc 1) 1 } = { s with pc := (s.pc + 2) % 65536 }
    rw [ramInc_one_one]
  · show push_address_u16
        { s with pc := ((s.mc.read (ramInc s.pc 1) <<< 8) ||| s.mc.read s.pc) % 65536 }
        (ramInc (ramInc s.pc 1) 1) =
      push_address_u16
        { s with pc := ((s.mc.read (ramInc s.pc 1) <<< 8) ||| s.mc.read s.pc) % 65536 }
        ((s.pc + 2) % 65536)
    rw [ramInc_one_one]

/-- C1: the code's write-rejection for the fixed ROM bank only covers
0x0000-0x00FF; a write to 0x0100 (still inside the 0x0000-0x3FFF fixed
ROM bank) falls to the catch-all arm and mutates the stored byte, so
`read(0x0100)` changes from 0 to 0xAB, contrary to the claim that every
address of the two ROM regions is write-protected. -/
theorem write_mutates_fixed_rom_bank :
    mcZero.read 0x0100 = 0 ∧
    (mcZero.write 0x0100 0xAB).read 0x0100 = 0xAB := by
  constructor
  · rfl
  · rfl

end Bugboy
